import Mathlib

/-!
# Verification of the locallibrary loan-lifecycle and renewal subsystem

A shallow embedding of the Django application `catalog` (files
`catalog/constants.py`, `catalog/forms.py`, `catalog/models.py`,
`catalog/views.py`) in Lean 4, together with theorems settling the
specification's claims about the renewal validator, the loan-lifecycle
operations, the overdue computation, the default ordering, the
capability gates and the per-session visit counter.

Dates are modelled as integers counting days (Python `datetime.date`
supports total order, subtraction in days, and `timedelta(weeks=w)` adds
`7*w` days). Users are identified by natural numbers.
-/

/-! ## catalog/constants.py -/

/-- `LoanStatus` enum from `catalog/constants.py`. -/
inductive LoanStatus
  | MAINTENANCE
  | ON_LOAN
  | AVAILABLE
  | RESERVED
  deriving DecidableEq, Repr

/-- `LoanStatus.<member>.value` from `catalog/constants.py`:
the one-character storage code of each status. -/
def LoanStatus.value : LoanStatus → String
  | .MAINTENANCE => "m"
  | .ON_LOAN => "o"
  | .AVAILABLE => "a"
  | .RESERVED => "r"

/-- `BOOKS_PER_PAGE` from `catalog/constants.py`. -/
def BOOKS_PER_PAGE : Nat := 5

/-- `DEFAULT_RENEWAL_WEEKS` from `catalog/constants.py`. -/
def DEFAULT_RENEWAL_WEEKS : Nat := 3

/-- `MAX_RENEWAL_WEEKS` from `catalog/constants.py`. -/
def MAX_RENEWAL_WEEKS : Nat := 4

/-! ## catalog/models.py -/

/-- `BookInstance` model from `catalog/models.py`: one physical copy of a
book.  `id` is the UUID primary key (modelled as a natural number),
`book` the foreign key to the owning `Book`, `imprint` the publisher
string, `due_back` the optional due date, `borrower` the optional
foreign key to a `User`, and `status` the one-character loan-status
code stored by the `CharField` (the model stores `LoanStatus.X.value`). -/
structure BookInstance where
  id : Nat
  book : Nat
  imprint : String
  due_back : Option Int
  borrower : Option Nat
  status : String
  deriving DecidableEq, Repr

/-- `BookInstance.is_overdue` property from `catalog/models.py`:
`return self.due_back and date.today() > self.due_back`.  When
`due_back` is `None` the Python expression short-circuits to the falsy
value `None`; as a truth value this is `false`.  `today` is passed
explicitly (the Python reads `date.today()`). -/
def BookInstance.is_overdue (b : BookInstance) (today : Int) : Bool :=
  match b.due_back with
  | none => false
  | some d => today > d

/-! ## catalog/forms.py -/

/-- The two validation errors raised by
`RenewBookForm.clean_renewal_date` in `catalog/forms.py`:
"Invalid date - renewal in past" and
"Invalid date - renewal more than 4 weeks ahead". -/
inductive ValidationError
  | PAST_DATE
  | TOO_FAR_AHEAD
  deriving DecidableEq, Repr

/-- `RenewBookForm.clean_renewal_date` from `catalog/forms.py`:
raises `PAST_DATE` if `data < date.today()`, raises `TOO_FAR_AHEAD` if
`data > date.today() + timedelta(weeks=MAX_RENEWAL_WEEKS)`, and
otherwise returns `data` unchanged.  `timedelta(weeks=w)` is `7*w`
days.  `today` is passed explicitly. -/
def clean_renewal_date (data today : Int) : Except ValidationError Int :=
  if data < today then
    .error .PAST_DATE
  else if data > today + 7 * (MAX_RENEWAL_WEEKS : Int) then
    .error .TOO_FAR_AHEAD
  else
    .ok data

/-! ## catalog/views.py : lifecycle operations -/

/-- Body of `MarkBookAsReturnedView.post` from `catalog/views.py`:
`book_instance.status = LoanStatus.AVAILABLE.value;
book_instance.borrower = None; book_instance.save()`.  No other field
is assigned. -/
def markBookAsReturned (b : BookInstance) : BookInstance :=
  { b with status := LoanStatus.AVAILABLE.value, borrower := none }

/-- POST branch of `renew_book_librarian` from `catalog/views.py`:
the form's `clean_renewal_date` runs inside `form.is_valid()`; only if
it succeeds is `book_instance.due_back = form.cleaned_data["renewal_date"]`
assigned and the instance saved.  On a validation error nothing is
written and the error is reported.  Returns the stored instance state
after the call together with the validation error, if any. -/
def renew_book_librarian_post (b : BookInstance) (proposed today : Int) :
    BookInstance × Option ValidationError :=
  match clean_renewal_date proposed today with
  | .ok d => ({ b with due_back := some d }, none)
  | .error e => (b, some e)

/-! ## catalog/views.py : capability gates -/

/-- A caller as seen by the identity/permission provider: whether the
caller is authenticated, the caller's user id, and the set of
capability (permission) names the caller holds. -/
structure Caller where
  is_authenticated : Bool
  user_id : Nat
  perms : List String
  deriving DecidableEq, Repr

/-- `user.has_perm(p)` for a caller. -/
def Caller.has_perm (u : Caller) (p : String) : Bool :=
  u.perms.contains p

/-- Outcome of a capability-gated request. -/
inductive ViewOutcome
  | redirectToLogin
  | forbidden
  | handled
  deriving DecidableEq, Repr

/-- Modelled from the spec: the behaviour of Django's `login_required`
decorator, `permission_required(..., raise_exception=True)` decorator,
`LoginRequiredMixin` and `PermissionRequiredMixin` — framework code not
part of this repository's sources.  The spec states that an
unauthenticated caller attempting a capability-gated operation yields a
redirect-to-login outcome (HTTP 302) and an authenticated caller
lacking the capability yields a forbidden outcome (HTTP 403).  The
permission name each view requires is taken from the source
(`views.py`). -/
def capability_gate (u : Caller) (perm : String) : ViewOutcome :=
  if !u.is_authenticated then .redirectToLogin
  else if !(u.has_perm perm) then .forbidden
  else .handled

/-- `MarkBookAsReturnedView` from `catalog/views.py` with its
`permission_required = "catalog.can_mark_returned"` gate: on passing
the gate, the POST body runs `markBookAsReturned`. -/
def markBookAsReturned_view (u : Caller) (b : BookInstance) :
    ViewOutcome × BookInstance :=
  match capability_gate u "catalog.can_mark_returned" with
  | .handled => (.handled, markBookAsReturned b)
  | o => (o, b)

/-- `renew_book_librarian` from `catalog/views.py` with its
`@login_required` and
`@permission_required("catalog.can_renew", raise_exception=True)`
gates: on passing the gate, the POST body runs
`renew_book_librarian_post`. -/
def renew_book_librarian_view (u : Caller) (b : BookInstance)
    (proposed today : Int) :
    ViewOutcome × BookInstance × Option ValidationError :=
  match capability_gate u "catalog.can_renew" with
  | .handled => (.handled, renew_book_librarian_post b proposed today)
  | o => (o, b, none)

/-! ## catalog/models.py : default ordering -/

/-- Modelled from the spec: the comparison used by the persistence
store when ordering instances by `due_back` ascending.  The ascending
key `ordering = ["due_back"]` is taken from `BookInstance.Meta` in
`catalog/models.py`; the placement of rows whose `due_back` is NULL is
decided by the database backend, whose configuration is not among the
sources, so it is modelled from the spec's words: "instances having no
due date sorted last". -/
def optDateLe : Option Int → Option Int → Bool
  | some x, some y => decide (x ≤ y)
  | some _, none => true
  | none, some _ => false
  | none, none => true

/-- The `due_back`-ascending, nulls-last order on book instances. -/
def dueBackLe (a b : BookInstance) : Prop :=
  optDateLe a.due_back b.due_back = true

instance : DecidableRel dueBackLe := fun a b =>
  inferInstanceAs (Decidable (optDateLe a.due_back b.due_back = true))

instance : IsTotal BookInstance dueBackLe := by
  constructor
  intro a b
  unfold dueBackLe optDateLe
  rcases a.due_back with _ | x <;> rcases b.due_back with _ | y <;> simp <;> omega

instance : IsTrans BookInstance dueBackLe := by
  constructor
  intro a b c
  unfold dueBackLe optDateLe
  rcases a.due_back with _ | x <;> rcases b.due_back with _ | y <;>
    rcases c.due_back with _ | z <;> simp <;> omega

/-- The default ordering of a collection of `BookInstance`s
(`BookInstance.Meta.ordering = ["due_back"]`). -/
def defaultOrdering (db : List BookInstance) : List BookInstance :=
  List.insertionSort dueBackLe db

/-! ## catalog/views.py : borrowed-books query -/

/-- `LoanedBooksByUserListView.get_queryset` from `catalog/views.py`:
`BookInstance.objects.filter(borrower=self.request.user)
.filter(status__exact=LoanStatus.ON_LOAN.value).order_by("due_back")`. -/
def loanedBooksByUser_queryset (user : Nat) (db : List BookInstance) :
    List BookInstance :=
  List.insertionSort dueBackLe
    ((db.filter (fun b => b.borrower == some user)).filter
      (fun b => b.status == LoanStatus.ON_LOAN.value))

/-- `LoanedBooksByUserListView` from `catalog/views.py` with its
`LoginRequiredMixin` gate (modelled from the spec, see
`capability_gate`): an unauthenticated caller is redirected to login;
an authenticated caller receives the queryset for their user id. -/
def loanedBooksByUser_view (u : Caller) (db : List BookInstance) :
    ViewOutcome × List BookInstance :=
  if !u.is_authenticated then (.redirectToLogin, [])
  else (.handled, loanedBooksByUser_queryset u.user_id db)

/-! ## catalog/views.py : per-session visit counter -/

/-- A session as used by `index` in `catalog/views.py`: the value bound
to the `"num_visits"` key, absent on a fresh session. -/
structure Session where
  num_visits : Option Nat
  deriving DecidableEq, Repr

/-- A fresh session: `"num_visits"` not set. -/
def freshSession : Session := ⟨none⟩

/-- Visit-counting fragment of `index` from `catalog/views.py`:
`num_visits = request.session.get("num_visits", 1);
request.session["num_visits"] = num_visits + 1`.  Returns the value
displayed in the context together with the updated session. -/
def index_visit (s : Session) : Nat × Session :=
  let n := s.num_visits.getD 1
  (n, ⟨some (n + 1)⟩)

/-- The session state after `k` requests to `index`, starting from
session `s`. -/
def sessionAfter (s : Session) : Nat → Session
  | 0 => s
  | k + 1 => (index_visit (sessionAfter s k)).2

/-- The visit counter displayed on the `(k+1)`-st request of a session
that started fresh (`k = 0` is the first request). -/
def displayedAt (k : Nat) : Nat :=
  (index_visit (sessionAfter freshSession k)).1

/-! ## Theorems -/

/-- `clean_renewal_date` with the window spelled out as 28 days
(`timedelta(weeks=4)`). -/
theorem clean_renewal_date_eq (data today : Int) :
    clean_renewal_date data today =
      if data < today then .error .PAST_DATE
      else if data > today + 28 then .error .TOO_FAR_AHEAD
      else .ok data := by
  unfold clean_renewal_date MAX_RENEWAL_WEEKS
  norm_num

/-- C1: for every proposed date `d` and every `today`, the renewal
validator accepts `d` (returning it unchanged) iff
`today ≤ d ≤ today + 28` days; it fails with `PAST_DATE` when `d` is
strictly before `today` and with `TOO_FAR_AHEAD` when `d` is strictly
after `today + 4` weeks, and both boundary dates are accepted. -/
theorem renewal_validator_window (d today : Int) :
    (clean_renewal_date d today = .ok d ↔ today ≤ d ∧ d ≤ today + 28) ∧
    (d < today → clean_renewal_date d today = .error .PAST_DATE) ∧
    (today + 28 < d → clean_renewal_date d today = .error .TOO_FAR_AHEAD) ∧
    clean_renewal_date today today = .ok today ∧
    clean_renewal_date (today + 28) today = .ok (today + 28) := by
  refine ⟨⟨fun h => ?_, fun h => ?_⟩, fun h => ?_, fun h => ?_, ?_, ?_⟩
  · rw [clean_renewal_date_eq] at h
    split_ifs at h with ha hb
    omega
  · rw [clean_renewal_date_eq]
    split_ifs with ha hb
    · omega
    · omega
    · rfl
  · rw [clean_renewal_date_eq]
    split_ifs
    rfl
  · rw [clean_renewal_date_eq]
    split_ifs with ha
    · omega
    · rfl
  · rw [clean_renewal_date_eq]
    split_ifs with ha hb
    · omega
    · omega
    · rfl
  · rw [clean_renewal_date_eq]
    split_ifs with ha hb
    · omega
    · omega
    · rfl

/-- Witness for `renewal_validator_window` at concrete dates. -/
theorem renewal_validator_window_witness :
    clean_renewal_date 2 2 = .ok 2 ∧
    clean_renewal_date 1 2 = .error .PAST_DATE ∧
    clean_renewal_date 31 2 = .error .TOO_FAR_AHEAD :=
  ⟨(renewal_validator_window 2 2).1.mpr (by constructor <;> decide),
   (renewal_validator_window 1 2).2.1 (by decide),
   (renewal_validator_window 31 2).2.2.1 (by decide)⟩

/-- C2: mark-as-returned is idempotent: for every `BookInstance` in any
prior status and with any borrower, applying it twice yields the same
final state as applying it once, namely status = AVAILABLE and
borrower absent. -/
theorem mark_as_returned_idempotent (b : BookInstance) :
    markBookAsReturned (markBookAsReturned b) = markBookAsReturned b ∧
    (markBookAsReturned b).status = LoanStatus.AVAILABLE.value ∧
    (markBookAsReturned b).borrower = none :=
  ⟨rfl, rfl, rfl⟩

/-- Evaluation of `is_overdue` when `due_back` is absent. -/
theorem is_overdue_of_none (b : BookInstance) (today : Int)
    (h : b.due_back = none) : b.is_overdue today = false := by
  unfold BookInstance.is_overdue
  rw [h]

/-- Evaluation of `is_overdue` when `due_back` is present. -/
theorem is_overdue_of_some (b : BookInstance) (today d : Int)
    (h : b.due_back = some d) : b.is_overdue today = decide (today > d) := by
  unfold BookInstance.is_overdue
  rw [h]

/-- A concrete on-loan instance used by witnesses: due back on day 5,
borrowed by user 7. -/
def sampleInstance : BookInstance :=
  { id := 1, book := 1, imprint := "Sample Imprint", due_back := some 5,
    borrower := some 7, status := LoanStatus.ON_LOAN.value }

/-- C3: whenever the renewal validator rejects the proposed date, the
renew operation returns that validation error and leaves the stored
instance state (in particular `due_back`) exactly as it was: no write
happens before validation succeeds. -/
theorem renew_invalid_no_mutation (b : BookInstance) (proposed today : Int)
    (e : ValidationError)
    (h : clean_renewal_date proposed today = .error e) :
    renew_book_librarian_post b proposed today = (b, some e) := by
  unfold renew_book_librarian_post
  rw [h]

/-- Witness for `renew_invalid_no_mutation`: renewing to yesterday
(day 4, today = day 5) fails with `PAST_DATE` and leaves the instance
untouched. -/
theorem renew_invalid_no_mutation_witness :
    renew_book_librarian_post sampleInstance 4 5 =
      (sampleInstance, some .PAST_DATE) :=
  renew_invalid_no_mutation sampleInstance 4 5 .PAST_DATE rfl

/-- C4: whenever the renewal validator accepts the proposed date, the
renew operation sets `due_back` to the proposed date and changes no
other field: `status`, `borrower`, `id`, `book` and `imprint` are
unchanged, and no error is reported. -/
theorem renew_valid_frame (b : BookInstance) (proposed today : Int)
    (h : clean_renewal_date proposed today = .ok proposed) :
    (renew_book_librarian_post b proposed today).1.due_back = some proposed ∧
    (renew_book_librarian_post b proposed today).1.status = b.status ∧
    (renew_book_librarian_post b proposed today).1.borrower = b.borrower ∧
    (renew_book_librarian_post b proposed today).1.id = b.id ∧
    (renew_book_librarian_post b proposed today).1.book = b.book ∧
    (renew_book_librarian_post b proposed today).1.imprint = b.imprint ∧
    (renew_book_librarian_post b proposed today).2 = none := by
  unfold renew_book_librarian_post
  rw [h]
  exact ⟨rfl, rfl, rfl, rfl, rfl, rfl, rfl⟩

/-- Witness for `renew_valid_frame`: renewing to day 10 (today = day 5)
succeeds. -/
theorem renew_valid_frame_witness :
    (renew_book_librarian_post sampleInstance 10 5).1.due_back = some 10 ∧
    (renew_book_librarian_post sampleInstance 10 5).1.status =
      sampleInstance.status ∧
    (renew_book_librarian_post sampleInstance 10 5).1.borrower =
      sampleInstance.borrower :=
  ⟨(renew_valid_frame sampleInstance 10 5 rfl).1,
   (renew_valid_frame sampleInstance 10 5 rfl).2.1,
   (renew_valid_frame sampleInstance 10 5 rfl).2.2.1⟩

/-- C5: `is_overdue` is true iff `due_back` is set and strictly before
`today`; when `due_back` is absent it is false regardless of status,
and a `due_back` of `today - 5` yields true. -/
theorem is_overdue_iff (b : BookInstance) (today : Int) :
    (b.is_overdue today = true ↔ ∃ d, b.due_back = some d ∧ d < today) ∧
    (b.due_back = none → b.is_overdue today = false) ∧
    (b.due_back = some (today - 5) → b.is_overdue today = true) := by
  rcases h : b.due_back with _ | d
  · rw [is_overdue_of_none b today h]
    refine ⟨⟨fun hf => absurd hf (by simp), ?_⟩, fun _ => rfl, fun h5 => ?_⟩
    · rintro ⟨x, hx, hlt⟩
      cases hx
    · cases h5
  · rw [is_overdue_of_some b today d h]
    refine ⟨⟨fun hd => ⟨d, rfl, of_decide_eq_true hd⟩, ?_⟩, fun hn => ?_,
      fun h5 => ?_⟩
    · rintro ⟨x, hx, hlt⟩
      injection hx with hx
      subst hx
      exact decide_eq_true hlt
    · cases hn
    · injection h5 with h5
      subst h5
      exact decide_eq_true (by omega)

/-- Witness for `is_overdue_iff`: the sample instance (due back day 5)
is overdue on day 10 = day 5 + 5. -/
theorem is_overdue_iff_witness :
    sampleInstance.due_back = some (10 - 5) ∧
    sampleInstance.is_overdue 10 = true :=
  ⟨by decide, (is_overdue_iff sampleInstance 10).2.2 (by decide)⟩

/-- C10: mark-as-returned leaves `due_back` unchanged, so an instance
whose due date is already past still reports `is_overdue = true` after
being marked returned. -/
theorem mark_as_returned_keeps_due_back (b : BookInstance) (today : Int) :
    (markBookAsReturned b).due_back = b.due_back ∧
    (∀ d, b.due_back = some d → d < today →
      (markBookAsReturned b).is_overdue today = true) := by
  refine ⟨rfl, ?_⟩
  intro d hd hlt
  have hdb : (markBookAsReturned b).due_back = some d := hd
  rw [is_overdue_of_some (markBookAsReturned b) today d hdb]
  exact decide_eq_true hlt

/-- Witness for `mark_as_returned_keeps_due_back`: the sample instance
(due back day 5), marked returned, is still overdue on day 10. -/
theorem mark_as_returned_keeps_due_back_witness :
    (markBookAsReturned sampleInstance).due_back = sampleInstance.due_back ∧
    (markBookAsReturned sampleInstance).is_overdue 10 = true :=
  ⟨(mark_as_returned_keeps_due_back sampleInstance 10).1,
   (mark_as_returned_keeps_due_back sampleInstance 10).2 5 rfl (by decide)⟩

/-- The capability gate redirects an unauthenticated caller to login. -/
theorem capability_gate_unauth (u : Caller) (perm : String)
    (h : u.is_authenticated = false) :
    capability_gate u perm = .redirectToLogin := by
  unfold capability_gate
  rw [h]
  rfl

/-- The capability gate forbids an authenticated caller lacking the
capability. -/
theorem capability_gate_noperm (u : Caller) (perm : String)
    (h : u.is_authenticated = true) (hp : u.has_perm perm = false) :
    capability_gate u perm = .forbidden := by
  unfold capability_gate
  rw [h, hp]
  rfl

/-- An unauthenticated caller, authenticated or not. -/
def unauthCaller : Caller :=
  { is_authenticated := false, user_id := 7, perms := [] }

/-- An authenticated caller holding no capability. -/
def authNoPermCaller : Caller :=
  { is_authenticated := true, user_id := 7, perms := [] }

/-- C6: for both capability-gated lifecycle operations (renew requiring
`catalog.can_renew`, mark-as-returned requiring
`catalog.can_mark_returned`), an authenticated caller lacking the
capability gets FORBIDDEN (HTTP 403) and an unauthenticated caller gets
redirect-to-login (HTTP 302). -/
theorem capability_gate_outcomes (u : Caller) (b : BookInstance)
    (proposed today : Int) :
    (u.is_authenticated = false →
      (markBookAsReturned_view u b).1 = .redirectToLogin ∧
      (renew_book_librarian_view u b proposed today).1 =
        .redirectToLogin) ∧
    (u.is_authenticated = true →
      u.has_perm "catalog.can_mark_returned" = false →
      (markBookAsReturned_view u b).1 = .forbidden) ∧
    (u.is_authenticated = true →
      u.has_perm "catalog.can_renew" = false →
      (renew_book_librarian_view u b proposed today).1 = .forbidden) := by
  refine ⟨fun h => ⟨?_, ?_⟩, fun h hp => ?_, fun h hp => ?_⟩
  · unfold markBookAsReturned_view
    rw [capability_gate_unauth u _ h]
  · unfold renew_book_librarian_view
    rw [capability_gate_unauth u _ h]
  · unfold markBookAsReturned_view
    rw [capability_gate_noperm u _ h hp]
  · unfold renew_book_librarian_view
    rw [capability_gate_noperm u _ h hp]

/-- Witness for `capability_gate_outcomes` with concrete callers. -/
theorem capability_gate_outcomes_witness :
    (markBookAsReturned_view unauthCaller sampleInstance).1 =
      .redirectToLogin ∧
    (markBookAsReturned_view authNoPermCaller sampleInstance).1 =
      .forbidden ∧
    (renew_book_librarian_view authNoPermCaller sampleInstance 10 5).1 =
      .forbidden :=
  ⟨((capability_gate_outcomes unauthCaller sampleInstance 10 5).1 rfl).1,
   (capability_gate_outcomes authNoPermCaller sampleInstance 10 5).2.1
     rfl rfl,
   (capability_gate_outcomes authNoPermCaller sampleInstance 10 5).2.2
     rfl rfl⟩

/-- C7: the default ordering of a collection of instances is by
`due_back` ascending, with every instance lacking a due date sorted
after all instances that have one: the result is a permutation of the
input in which dated instances appear in ascending date order and no
dated instance follows an undated one. -/
theorem default_ordering_spec (db : List BookInstance) :
    (defaultOrdering db).Perm db ∧
    (defaultOrdering db).Pairwise (fun a c =>
      (∀ x y, a.due_back = some x → c.due_back = some y → x ≤ y) ∧
      (a.due_back = none → c.due_back = none)) := by
  constructor
  · exact List.perm_insertionSort dueBackLe db
  · refine List.Pairwise.imp ?_ (List.sorted_insertionSort dueBackLe db)
    intro a c hac
    have hac' : optDateLe a.due_back c.due_back = true := hac
    constructor
    · intro x y hx hy
      rw [hx, hy] at hac'
      simpa [optDateLe] using hac'
    · intro hn
      rw [hn] at hac'
      rcases hc : c.due_back with _ | z
      · rfl
      · rw [hc] at hac'
        simp [optDateLe] at hac'

/-- C8: for an authenticated caller the borrowed-books view returns
exactly the instances with `borrower` equal to the caller and `status`
on loan, ordered by `due_back` ascending; an unauthenticated caller is
redirected to login. -/
theorem loaned_books_by_user_spec (u : Caller) (db : List BookInstance) :
    (u.is_authenticated = false →
      (loanedBooksByUser_view u db).1 = .redirectToLogin) ∧
    (u.is_authenticated = true →
      loanedBooksByUser_view u db =
        (.handled, loanedBooksByUser_queryset u.user_id db)) ∧
    (∀ b, b ∈ loanedBooksByUser_queryset u.user_id db ↔
      (b ∈ db ∧ b.borrower = some u.user_id ∧
        b.status = LoanStatus.ON_LOAN.value)) ∧
    (loanedBooksByUser_queryset u.user_id db).Pairwise
      (fun a c => ∀ x y, a.due_back = some x → c.due_back = some y →
        x ≤ y) := by
  refine ⟨fun h => ?_, fun h => ?_, fun b => ?_, ?_⟩
  · unfold loanedBooksByUser_view
    rw [h]
    rfl
  · unfold loanedBooksByUser_view
    rw [h]
    rfl
  · unfold loanedBooksByUser_queryset
    rw [(List.perm_insertionSort dueBackLe _).mem_iff]
    simp only [List.mem_filter, beq_iff_eq, and_assoc]
  · unfold loanedBooksByUser_queryset
    refine List.Pairwise.imp ?_ (List.sorted_insertionSort dueBackLe _)
    intro a c hac
    have hac' : optDateLe a.due_back c.due_back = true := hac
    intro x y hx hy
    rw [hx, hy] at hac'
    simpa [optDateLe] using hac'

/-- Witness for `loaned_books_by_user_spec`: an unauthenticated caller
is redirected; the sample instance (borrowed by user 7, on loan) is in
user 7's borrowed list. -/
theorem loaned_books_by_user_spec_witness :
    (loanedBooksByUser_view unauthCaller [sampleInstance]).1 =
      .redirectToLogin ∧
    sampleInstance ∈ loanedBooksByUser_queryset 7 [sampleInstance] :=
  ⟨(loaned_books_by_user_spec unauthCaller [sampleInstance]).1 rfl,
   ((loaned_books_by_user_spec authNoPermCaller [sampleInstance]).2.2.1
       sampleInstance).mpr
     ⟨List.mem_singleton.mpr rfl, rfl, rfl⟩⟩

/-- The session state after `k + 1` requests of a fresh session holds
`k + 2`. -/
theorem sessionAfter_fresh (k : Nat) :
    sessionAfter freshSession (k + 1) = ⟨some (k + 2)⟩ := by
  induction k with
  | zero => rfl
  | succ n ih =>
    show (index_visit (sessionAfter freshSession (n + 1))).2 = _
    rw [ih]
    rfl

/-- The counter displayed on the `(k+1)`-st request is `k + 1`. -/
theorem displayedAt_eq (k : Nat) : displayedAt k = k + 1 := by
  cases k with
  | zero => rfl
  | succ n =>
    show (index_visit (sessionAfter freshSession (n + 1))).1 = n + 2
    rw [sessionAfter_fresh]
    rfl

/-- C9: the per-session visit counter starts at 1 on the first request
of a session and increases by exactly 1 on every subsequent request,
so the displayed values are strictly increasing within a session. -/
theorem visit_counter_spec :
    displayedAt 0 = 1 ∧
    (∀ k, displayedAt (k + 1) = displayedAt k + 1) ∧
    (∀ i j, i < j → displayedAt i < displayedAt j) := by
  refine ⟨rfl, fun k => ?_, fun i j hij => ?_⟩
  · rw [displayedAt_eq, displayedAt_eq]
  · rw [displayedAt_eq, displayedAt_eq]
    omega

/-- Witness for `visit_counter_spec`: the first three displayed values
are 1, 2 and increasing. -/
theorem visit_counter_spec_witness :
    displayedAt 0 = 1 ∧
    displayedAt 1 = displayedAt 0 + 1 ∧
    displayedAt 0 < displayedAt 2 :=
  ⟨visit_counter_spec.1,
   visit_counter_spec.2.1 0,
   visit_counter_spec.2.2 0 2 (by decide)⟩
